import Mathlib

/-!
Shallow embedding of the `timeline-editor` repository's calendar core
(`src/time/src/date/gregorian.rs`, `src/time/src/calendar.rs`, and the older
snapshot `src/timeline/src/time/calendar/gregorian.rs`), together with proofs
about the behaviour of `days_between`, the `Year` arithmetic, construction
validation, and the conversions through `StandardCalendar`.

Modelling conventions: Rust's `i128` values are modelled as `Int` (the claims
under study never reach the `i128` bounds) and `u8`/`u16` day counts as `Nat`
(the sums involved stay far below `u16::MAX` on valid dates); Rust's `%` on
signed integers is truncated remainder, `Int.tmod`. A Rust panic
(`unwrap`, `todo!`) is modelled by an `Option` result of `none`.
-/

namespace TimelineEditor

/-- The `Month` enum from `src/time/src/date/gregorian.rs`: twelve variants with
discriminants 1..=12. -/
inductive Month
  | january
  | february
  | march
  | april
  | may
  | june
  | july
  | august
  | september
  | october
  | november
  | december
deriving DecidableEq, Repr

/-- The numeric discriminant of a `Month` (`month as usize` in the source):
January is 1, ..., December is 12. The derived `Ord` on the Rust enum compares
these discriminants. -/
def Month.code : Month → Nat
  | .january => 1
  | .february => 2
  | .march => 3
  | .april => 4
  | .may => 5
  | .june => 6
  | .july => 7
  | .august => 8
  | .september => 9
  | .october => 10
  | .november => 11
  | .december => 12

/-- `Year` wraps a `NonZeroI128` (`pub struct Year(std::num::NonZeroI128)`):
a signed integer that is never zero. -/
abbrev Year := { i : Int // i ≠ 0 }

/-- The body of `Year::is_leap_year` on the raw inner integer:
`inner % 4 == 0 && ((inner % 400 == 0) || inner % 100 != 0)`, with Rust's
truncated `%` rendered as `Int.tmod`. -/
def isLeapInt (y : Int) : Bool :=
  y.tmod 4 == 0 && (y.tmod 400 == 0 || y.tmod 100 != 0)

/-- `Year::is_leap_year`. -/
def Year.is_leap_year (y : Year) : Bool :=
  isLeapInt y.val

/-- `Year::next`: increments, mapping year -1 directly to year 1 (there is no
year 0). -/
def Year.next (y : Year) : Year :=
  if h : y.val = -1 then ⟨1, one_ne_zero⟩
  else ⟨y.val + 1, by omega⟩

/-- `Sub<Year> for Year`: the difference in years, with the naive integer
subtraction corrected by -1 (positive minus negative) or +1 (negative minus
positive) because year 0 does not exist. -/
def Year.sub (a b : Year) : Int :=
  if 0 < a.val ∧ b.val < 0 then a.val - b.val - 1
  else if a.val < 0 ∧ 0 < b.val then a.val - b.val + 1
  else a.val - b.val

/-- `Date::REG_DAYS_IN_MONTH`. -/
def REG_DAYS_IN_MONTH : List Nat :=
  [31, 28, 31, 30, 31, 30, 31, 31, 30, 31, 30, 31]

/-- `Date::LEAP_DAYS_IN_MONTH`. -/
def LEAP_DAYS_IN_MONTH : List Nat :=
  [31, 29, 31, 30, 31, 30, 31, 31, 30, 31, 30, 31]

/-- The day-count table selected for a year: the leap table when
`is_leap_year`, the regular table otherwise (the selection made at the top of
`from_parts` and of each branch of `days_between`). -/
def daysInMonthTable (y : Year) : List Nat :=
  if isLeapInt y.val then LEAP_DAYS_IN_MONTH else REG_DAYS_IN_MONTH

/-- `pub struct Date { year: Year, month: Month, day: u8 }`. -/
structure Date where
  year : Year
  month : Month
  day : Nat
deriving DecidableEq, Repr

/-- The manual `Ord for Date`: lexicographic comparison of year, then month
(by discriminant), then day. `Date.lt a b` is `a < b`. -/
def Date.lt (a b : Date) : Prop :=
  a.year.val < b.year.val ∨
    (a.year.val = b.year.val ∧
      (a.month.code < b.month.code ∨
        (a.month.code = b.month.code ∧ a.day < b.day)))

instance instDecidableDateLt (a b : Date) : Decidable (Date.lt a b) := by
  unfold Date.lt
  infer_instance

/-- The error enum from the `errors` module (month and day rejections). -/
inductive DateCreationError
  | invalidMonth (code : Nat)
  | invalidDay (day : Nat)
deriving DecidableEq, Repr

/-- `Date::from_parts`: accepts the triple iff the day lies in
`1..=days_in_month[month - 1]` for the year's leap/regular table, otherwise
rejects with `InvalidDay(day)`. -/
def fromParts (year : Year) (month : Month) (day : Nat) :
    Except DateCreationError Date :=
  if 1 ≤ day ∧ day ≤ (daysInMonthTable year).getD (month.code - 1) 0 then
    .ok ⟨year, month, day⟩
  else
    .error (.invalidDay day)

/-- `Date::from_year`: January 1 of the given year, built without validation. -/
def fromYear (year : Year) : Date :=
  ⟨year, .january, 1⟩

/-- `<Date as Calendar>::reference_date`: year 1, January, day 1. -/
def referenceDate : Date :=
  ⟨⟨1, one_ne_zero⟩, .january, 1⟩

/-- The integer range `a..b` as a list, modelling the Rust `Range<i128>`
iterator (empty when `b ≤ a`). -/
def intRange (a b : Int) : List Int :=
  (List.range (b - a).toNat).map (fun i => a + (i : Int))

/-- `Date::leap_days_between`: after ordering the two dates, counts the leap
years whose number lies strictly between the two years' numbers, then adds one
for a leap first-year whose date is on/before February and one for a leap
second-year whose date is after February.

The source runs every year of the range through `Year::try_from(y).unwrap()`,
which panics when the range contains 0 (there is no year 0); that panic is
modelled as `none`. When 0 is absent, filtering the raw integers by
`isLeapInt` is exactly the source's filter. -/
def leapDaysBetween (first second : Date) : Option Nat :=
  let p := if Date.lt second first then (second, first) else (first, second)
  let f := p.1
  let s := p.2
  let ys := intRange (f.year.val + 1) s.year.val
  if ys.contains 0 then none
  else
    let leapYears := (ys.filter (fun y => isLeapInt y)).length
    let leapDays1 :=
      if f.month.code ≤ Month.february.code ∧ isLeapInt f.year.val then
        leapYears + 1
      else leapYears
    let leapDays2 :=
      if Month.february.code < s.month.code ∧ isLeapInt s.year.val then
        leapDays1 + 1
      else leapDays1
    some leapDays2

/-- Sum, as an integer, of the elements of the slice `l[a..b]` of a day-count
table (the source sums as `u16`, which cannot overflow on these 12-entry
tables of values at most 31). -/
def sliceSum (l : List Nat) (a b : Nat) : Int :=
  (((l.drop a).take (b - a)).map (fun n => (n : Int))).sum

/-- `<Date as Calendar>::days_between`. After ordering the arguments:
same-year dates take the slice `days_in_month[first.month..second.month]`
(1-based discriminants over the 0-indexed table) plus `second.day - first.day`;
different-year dates sum the head of the second year, the tail of the first
year, and `(second.year - first.year - 1) * 365` plus `leap_days_between`
whenever the years are more than 1 apart. The `leap_days_between` panic
propagates as `none`. The source's `u16` subtractions cannot underflow on
dates whose day is at least 1 and at most its month's table entry. -/
def daysBetween (first second : Date) : Option Int :=
  let p := if Date.lt second first then (second, first) else (first, second)
  let f := p.1
  let s := p.2
  if f.year.val = s.year.val then
    some (sliceSum (daysInMonthTable f.year) f.month.code s.month.code
      + (s.day : Int) - (f.day : Int))
  else
    let daysLastYear : Int :=
      sliceSum (daysInMonthTable s.year) 0 (s.month.code - 1) + (s.day : Int) - 1
    let daysFirstYear : Int :=
      sliceSum (daysInMonthTable f.year) f.month.code 12
        + ((daysInMonthTable f.year).getD (f.month.code - 1) 0 : Int)
        - (f.day : Int) + 1
    match leapDaysBetween (fromYear f.year.next) (fromYear s.year) with
    | none => none
    | some leapDays =>
      let daysOtherYears : Int :=
        if 1 < Year.sub s.year f.year then
          (Year.sub s.year f.year - 1) * 365 + (leapDays : Int)
        else 0
      some (daysOtherYears + daysFirstYear + daysLastYear)

/-- `From<&Date> for StandardCalendar` (`to_standard`). A `StandardCalendar`
is its single `days: i128` field, so it is modelled as the `Int` it wraps.
The sign is positive when the reference date is strictly before the given
date, negative otherwise; a `days_between` panic propagates as `none`. -/
def toStandard (date : Date) : Option Int :=
  (daysBetween referenceDate date).map
    (fun between => if Date.lt referenceDate date then between else -between)

/-- `From<StandardCalendar> for Date` (`from_standard`): the source fills the
`year` field with `todo!()`, so the conversion panics on every input;
modelled as `none`. -/
def fromStandard (standard : Int) : Option Date :=
  none

/-- `ConvertCalendar::convert_to::<Date>` on a `Date`:
`from_standard(to_standard(self))`, with panics propagated. -/
def convertToSelf (date : Date) : Option Date :=
  (toStandard date).bind fromStandard

/-- `<Date as Calendar>::add_days`: the body is `todo!()` (an earlier
raw-arithmetic draft is commented out), so every call panics; modelled as
`none`. -/
def addDays (date : Date) (days : Int) : Option Date :=
  none

/-- The validity invariant of a Gregorian date: the day-of-month lies in
`[1, days-in-month]` for its month under its year's leap/regular table. -/
def ValidDate (d : Date) : Prop :=
  1 ≤ d.day ∧ d.day ≤ (daysInMonthTable d.year).getD (d.month.code - 1) 0

instance instDecidableValidDate (d : Date) : Decidable (ValidDate d) := by
  unfold ValidDate
  infer_instance

/-- The `timeline` crate's older `GregorianDate` snapshot
(`src/timeline/src/time/calendar/gregorian.rs`): `year: i128, day: u16`. -/
structure TlGregorianDate where
  year : Int
  day : Nat
deriving DecidableEq, Repr

/-- The timeline snapshot's `From<&GregorianDate> for StandardCalendar`:
`year * 365 + day`. -/
def tlToStandard (d : TlGregorianDate) : Int :=
  d.year * 365 + (d.day : Int)

/-- The timeline snapshot's `From<&StandardCalendar> for GregorianDate`:
`days / 365` and `days % 365` with Rust's truncated division and remainder,
the remainder cast `as u16` (wrapping modulo 2^16). -/
def tlFromStandard (days : Int) : TlGregorianDate :=
  ⟨days.tdiv 365, ((days.tmod 365) % 65536).toNat⟩

/-- The timeline snapshot's `Calendar::add_days`:
`year += days / 365; day += (days % 365) as u16`, the day addition performed
in `u16` (wrapping modulo 2^16). -/
def tlAddDays (d : TlGregorianDate) (days : Int) : TlGregorianDate :=
  ⟨d.year + days.tdiv 365,
    (((d.day : Int) + (days.tmod 365) % 65536) % 65536).toNat⟩

/-- Day-of-year ordinal of a date (January 1 is 1), from its year's
leap/regular day-count table. Modelled from the spec: the per-month table
prefix sum used by the same-year description of `days_between`. -/
def dayOfYear (d : Date) : Nat :=
  ((daysInMonthTable d.year).take (d.month.code - 1)).sum + d.day

/-- Number of days in a (nonzero) year. -/
def daysInYearInt (y : Int) : Nat :=
  if isLeapInt y then 366 else 365

/-- Modelled from the spec: the absolute day number of a date, the
convert-to-day-numbers half of the naive oracle that `days_between` must
agree with. Year 1, January 1 is day 0; positive years count forward and
negative years backward (there is no year 0, so year -1, December 31 is
day -1). -/
def absDayNumber (d : Date) : Int :=
  if 0 < d.year.val then
    ((List.range (d.year.val - 1).toNat).map
      (fun i => (daysInYearInt ((i : Int) + 1) : Int))).sum
      + (dayOfYear d : Int) - 1
  else
    -(((List.range (-d.year.val).toNat).map
      (fun i => (daysInYearInt (-1 - (i : Int)) : Int))).sum)
      + (dayOfYear d : Int) - 1

/-- Modelled from the spec: the naive convert-both-to-day-numbers-and-subtract
oracle for `days_between` (the absolute difference of absolute day numbers). -/
def oracleDaysBetween (a b : Date) : Int :=
  ((absDayNumber a - absDayNumber b).natAbs : Int)

/-- Concrete date: year 1, January 31. -/
def dYear1Jan31 : Date :=
  ⟨⟨1, one_ne_zero⟩, .january, 31⟩

/-- Concrete date: year 1, February 1. -/
def dYear1Feb1 : Date :=
  ⟨⟨1, one_ne_zero⟩, .february, 1⟩

/-- Concrete date: year -2, January 1. -/
def dNeg2Jan1 : Date :=
  ⟨⟨-2, by decide⟩, .january, 1⟩

/-- Concrete date: year -1, December 31. -/
def dNeg1Dec31 : Date :=
  ⟨⟨-1, by decide⟩, .december, 31⟩

/-- Concrete date: year 2, January 1. -/
def dYear2Jan1 : Date :=
  ⟨⟨2, by decide⟩, .january, 1⟩

theorem month_code_injective (m1 m2 : Month) (h : m1.code = m2.code) :
    m1 = m2 := by
  revert h
  cases m1 <;> cases m2 <;> decide

theorem date_lt_asymm (a b : Date) (h : Date.lt a b) : ¬ Date.lt b a := by
  unfold Date.lt at *
  omega

theorem date_eq_of_not_lt (a b : Date) (h1 : ¬ Date.lt a b)
    (h2 : ¬ Date.lt b a) : a = b := by
  have hy : a.year.val = b.year.val := by unfold Date.lt at h1 h2; omega
  have hm : a.month.code = b.month.code := by unfold Date.lt at h1 h2; omega
  have hd : a.day = b.day := by unfold Date.lt at h1 h2; omega
  obtain ⟨ya, ma, da⟩ := a
  obtain ⟨yb, mb, db⟩ := b
  congr 1
  · exact Subtype.ext hy
  · exact month_code_injective _ _ hm

/-- C1: the claim says `days_between` of two valid dates equals the naive
convert-both-to-absolute-day-numbers-and-subtract oracle, and for same-year
dates the difference of day-of-year ordinals. It fails: for (year 1, Jan 1)
and (year 1, Feb 1) the code returns 28 (it sums the slice
`days_in_month[first.month..second.month]`, i.e. February's length, instead of
January's) while the oracle and the day-of-year difference give 31. -/
theorem c1_days_between_diverges_from_oracle :
    ValidDate referenceDate ∧ ValidDate dYear1Feb1
      ∧ daysBetween referenceDate dYear1Feb1 = some 28
      ∧ oracleDaysBetween referenceDate dYear1Feb1 = 31
      ∧ (dayOfYear dYear1Feb1 : Int) - (dayOfYear referenceDate : Int) = 31 := by
  refine ⟨by decide, by decide, by decide, by decide, by decide⟩

/-- C2: the claim says `from_standard(to_standard(d)) == d` for every valid
`d`. It fails: `from_standard` fills its `year` field with `todo!()`, so the
round-trip panics on every input (modelled as `none`), even where
`to_standard` itself succeeds (the reference date maps to day 0). -/
theorem c2_round_trip_panics :
    toStandard referenceDate = some 0
      ∧ fromStandard 0 = none
      ∧ (∀ d : Date, convertToSelf d = none) := by
  refine ⟨by decide, rfl, ?_⟩
  intro d
  unfold convertToSelf fromStandard
  cases toStandard d <;> rfl

/-- C3: the claim says `days_between` of two valid dates never panics, even
across the missing year 0. It fails: for (year -2, Jan 1) and (year 1, Jan 1)
— both valid — `leap_days_between` iterates the year range `0..1`, and
`Year::try_from(0).unwrap()` panics (modelled as `none`). -/
theorem c3_days_between_panics_across_year_zero :
    ValidDate dNeg2Jan1 ∧ ValidDate referenceDate
      ∧ daysBetween dNeg2Jan1 referenceDate = none
      ∧ daysBetween referenceDate dNeg2Jan1 = none := by
  refine ⟨by decide, by decide, by decide, by decide⟩

/-- C4: `Year` subtraction is plain integer subtraction for same-sign
operands, integer subtraction minus 1 for positive minus negative, integer
subtraction plus 1 for negative minus positive; in particular
`year(1) - year(-1) == 1` and `year(-1) - year(1) == -1`. -/
theorem c4_year_sub_spec :
    (∀ a b : Year, (0 < a.val ∧ 0 < b.val) ∨ (a.val < 0 ∧ b.val < 0) →
        Year.sub a b = a.val - b.val)
      ∧ (∀ a b : Year, 0 < a.val → b.val < 0 →
        Year.sub a b = a.val - b.val - 1)
      ∧ (∀ a b : Year, a.val < 0 → 0 < b.val →
        Year.sub a b = a.val - b.val + 1)
      ∧ Year.sub ⟨1, one_ne_zero⟩ ⟨-1, by decide⟩ = 1
      ∧ Year.sub ⟨-1, by decide⟩ ⟨1, one_ne_zero⟩ = -1 := by
  refine ⟨?_, ?_, ?_, by decide, by decide⟩
  · intro a b h
    unfold Year.sub
    split_ifs <;> omega
  · intro a b h1 h2
    unfold Year.sub
    split_ifs <;> omega
  · intro a b h1 h2
    unfold Year.sub
    split_ifs <;> omega

/-- Witness for C4 at concrete years 5 and 2 (same sign: plain subtraction). -/
theorem c4_year_sub_spec_witness :
    Year.sub ⟨5, by decide⟩ ⟨2, by decide⟩ = (5 : Int) - 2 :=
  c4_year_sub_spec.1 ⟨5, by decide⟩ ⟨2, by decide⟩ (by decide)

/-- C5: `from_parts year month day` returns `Ok` (with exactly that triple)
iff `1 ≤ day ≤ days_in_month` from the year's leap/regular table, and in every
other case returns `Err(InvalidDay(day))`. -/
theorem c5_from_parts_spec :
    ∀ (y : Year) (m : Month) (d : Nat),
      (fromParts y m d = .ok ⟨y, m, d⟩ ↔
        1 ≤ d ∧ d ≤ (daysInMonthTable y).getD (m.code - 1) 0)
      ∧ (fromParts y m d = .error (.invalidDay d) ↔
        ¬ (1 ≤ d ∧ d ≤ (daysInMonthTable y).getD (m.code - 1) 0)) := by
  intro y m d
  unfold fromParts
  split_ifs with h
  · exact ⟨⟨fun _ => h, fun _ => rfl⟩, ⟨fun hh => hh.elim, fun hh => absurd h hh⟩⟩
  · exact ⟨⟨fun hh => hh.elim, fun hc => absurd hc h⟩, ⟨fun _ => h, fun _ => rfl⟩⟩

/-- Witness for C5: February 29 of leap year 2020 is accepted. -/
theorem c5_from_parts_spec_witness :
    fromParts ⟨2020, by decide⟩ .february 29 =
      .ok ⟨⟨2020, by decide⟩, .february, 29⟩ :=
  (c5_from_parts_spec ⟨2020, by decide⟩ .february 29).1.mpr (by decide)

/-- C6: the claim says `days_between` is non-negative, symmetric in its
arguments, and zero on equal dates. Non-negativity fails: for the valid dates
(year 1, Jan 31) and (year 1, Feb 1) the code returns -2 (the same-year
month-slice bug), in either argument order. -/
theorem c6_days_between_negative :
    ValidDate dYear1Jan31 ∧ ValidDate dYear1Feb1
      ∧ daysBetween dYear1Jan31 dYear1Feb1 = some (-2)
      ∧ daysBetween dYear1Feb1 dYear1Jan31 = some (-2) := by
  refine ⟨by decide, by decide, by decide, by decide⟩

/-- C7: whenever `days_between(reference_date, d)` returns a value `b`,
`to_standard(d)` returns `b` negated exactly when `d` is strictly before the
reference date (so non-negated when `d` is on or after it); the reference
date maps to day 0 and (year -1, December 31) to day -1. -/
theorem c7_to_standard_spec :
    (∀ (d : Date) (b : Int), daysBetween referenceDate d = some b →
        toStandard d = some (if Date.lt d referenceDate then -b else b))
      ∧ toStandard referenceDate = some 0
      ∧ toStandard dNeg1Dec31 = some (-1) := by
  refine ⟨?_, by decide, by decide⟩
  intro d b h
  unfold toStandard
  rw [h]
  simp only [Option.map]
  by_cases h1 : Date.lt referenceDate d
  · rw [if_pos h1, if_neg (date_lt_asymm _ _ h1)]
  · by_cases h2 : Date.lt d referenceDate
    · rw [if_neg h1, if_pos h2]
    · have he : referenceDate = d := date_eq_of_not_lt _ _ h1 h2
      subst he
      have h0 : daysBetween referenceDate referenceDate = some 0 := by decide
      rw [h0] at h
      have hb : b = 0 := (Option.some.inj h).symm
      subst hb
      rw [if_neg h1, if_neg h2]
      decide

/-- Witness for C7: `days_between(reference, (year 2, Jan 1)) = 365` and
`to_standard` keeps the positive sign there. -/
theorem c7_to_standard_spec_witness :
    daysBetween referenceDate dYear2Jan1 = some 365
      ∧ toStandard dYear2Jan1 =
        some (if Date.lt dYear2Jan1 referenceDate then -(365 : Int) else 365) :=
  ⟨by decide, c7_to_standard_spec.1 dYear2Jan1 365 (by decide)⟩

/-- C8: the claim says `add_days` is observably identical to the round-trip
`from_standard(to_standard(self) + days)`. It fails: the time crate's
`add_days` is `todo!()` and panics on every call, and the timeline snapshot's
raw `/365`, `%365` arithmetic diverges from its own round-trip: adding one day
to (year 1, day 364) gives (year 1, day 365) while the round-trip through
`StandardCalendar` gives (year 2, day 0). -/
theorem c8_add_days_diverges :
    (∀ (d : Date) (n : Int), addDays d n = none)
      ∧ tlAddDays ⟨1, 364⟩ 1 = ⟨1, 365⟩
      ∧ tlFromStandard (tlToStandard ⟨1, 364⟩ + 1) = ⟨2, 0⟩
      ∧ tlAddDays ⟨1, 364⟩ 1 ≠ tlFromStandard (tlToStandard ⟨1, 364⟩ + 1) := by
  refine ⟨fun _ _ => rfl, by decide, by decide, by decide⟩

/-- C9: `is_leap_year` holds iff the signed year value is divisible by 4 and
(divisible by 400 or not divisible by 100); in particular it is true at 2020
and 2000 and false at 1900, 2017 and 2018. -/
theorem c9_leap_year_rule :
    (∀ y : Year, y.is_leap_year = true ↔
        (4 : Int) ∣ y.val ∧ ((400 : Int) ∣ y.val ∨ ¬ (100 : Int) ∣ y.val))
      ∧ Year.is_leap_year ⟨2020, by decide⟩ = true
      ∧ Year.is_leap_year ⟨2000, by decide⟩ = true
      ∧ Year.is_leap_year ⟨1900, by decide⟩ = false
      ∧ Year.is_leap_year ⟨2017, by decide⟩ = false
      ∧ Year.is_leap_year ⟨2018, by decide⟩ = false := by
  refine ⟨?_, by decide, by decide, by decide, by decide, by decide⟩
  intro y
  unfold Year.is_leap_year isLeapInt
  simp only [Bool.and_eq_true, Bool.or_eq_true, beq_iff_eq, bne_iff_ne, ne_eq,
    Int.dvd_iff_tmod_eq_zero]

/-- Witness for C9 at year -4 (the rule applies directly to negative years). -/
theorem c9_leap_year_rule_witness :
    Year.is_leap_year ⟨-4, by decide⟩ = true ↔
      (4 : Int) ∣ (-4 : Int) ∧ ((400 : Int) ∣ (-4 : Int) ∨ ¬ (100 : Int) ∣ (-4 : Int)) :=
  c9_leap_year_rule.1 ⟨-4, by decide⟩

/-- C10: every date produced by a public constructor satisfies the validity
invariant: `from_parts` only returns valid dates, `from_year` always yields
the valid January 1, and the reference date is valid. -/
theorem c10_constructors_valid :
    (∀ (y : Year) (m : Month) (d : Nat) (date : Date),
        fromParts y m d = .ok date → ValidDate date)
      ∧ (∀ y : Year, ValidDate (fromYear y))
      ∧ ValidDate referenceDate := by
  refine ⟨?_, ?_, by decide⟩
  · intro y m d date hEq
    unfold fromParts at hEq
    split_ifs at hEq with h
    cases hEq
    exact h
  · intro y
    unfold ValidDate fromYear daysInMonthTable
    refine ⟨le_refl 1, ?_⟩
    split
    · show (1 : Nat) ≤ LEAP_DAYS_IN_MONTH.getD (Month.january.code - 1) 0
      decide
    · show (1 : Nat) ≤ REG_DAYS_IN_MONTH.getD (Month.january.code - 1) 0
      decide

/-- Witness for C10: the date accepted by `from_parts` for February 29 of
2020 satisfies the invariant. -/
theorem c10_constructors_valid_witness :
    fromParts ⟨2020, by decide⟩ .february 29 =
        .ok ⟨⟨2020, by decide⟩, .february, 29⟩
      ∧ ValidDate ⟨⟨2020, by decide⟩, .february, 29⟩ :=
  ⟨rfl,
    c10_constructors_valid.1 ⟨2020, by decide⟩ .february 29
      ⟨⟨2020, by decide⟩, .february, 29⟩ rfl⟩

end TimelineEditor
